import Mathlib

/-!
Verification of the retry-classification-and-backoff engine in `lib/prisma.ts`.

The source file contains two variants of the same module:
* an "enhanced" variant: classifier `isRetryable` (initialization errors always
  retryable, known-request errors by code, unknown-request errors and generic
  values by case-insensitive message patterns) plus a retry loop over the
  delay schedule `RETRY_DELAYS_MS = [1000, 2000, 3000]`;
* a "one-shot" variant: classifier `isRetryableOneShot` (code-based only,
  initialization errors checked through `errorCode ?? ''`) plus a single retry.

Errors are modelled as a discriminated union over the three Prisma error
classes the code tests with `instanceof`, plus a generic fallback value
carrying an optional string message (`none` models a value whose `message`
property is not a string, so that the `typeof errorMessage === 'string'`
guard fails).
-/

namespace NeonRetry

/-- The failure values the classifier inspects, one constructor per
`instanceof` branch of `isRetryable`, plus the generic fallback. -/
inductive PrismaError where
  | initialization (errorCode : Option String) (message : String)
  | knownRequest (code : String) (message : String)
  | unknownRequest (message : String)
  | generic (message : Option String)
  deriving DecidableEq

/-- `RETRYABLE_CODES` from the source: the transient Prisma error codes. -/
def RETRYABLE_CODES : List String := ["P1001", "P1002", "P1008", "P1017", "P2024"]

/-- `RETRY_DELAYS_MS` from the enhanced variant: progressive base delays. -/
def RETRY_DELAYS_MS : List Nat := [1000, 2000, 3000]

/-- `RETRY_DELAY_MS` from the one-shot variant: single fixed delay. -/
def RETRY_DELAY_MS : Nat := 1000

/-- `jitter` from the source: `ms + Math.floor(Math.random() * 250)`, with the
value of `Math.random()` made explicit as a rational argument `rand`. -/
def jitter (ms : Nat) (rand : ℚ) : ℤ := (ms : ℤ) + Int.floor (rand * 250)

/-- Boolean test that the first character list is a prefix of the second. -/
def startsWithL : List Char → List Char → Bool
  | [], _ => true
  | _ :: _, [] => false
  | p :: ps, c :: cs => p == c && startsWithL ps cs

/-- Boolean test that `pat` occurs as a contiguous sublist of the argument. -/
def infixOfL (pat : List Char) : List Char → Bool
  | [] => startsWithL pat []
  | c :: cs => startsWithL pat (c :: cs) || infixOfL pat cs

/-- Case-insensitive substring test: each source pattern is a `/.../i` regex
whose body is a literal, so `pattern.test(msg)` is exactly a case-insensitive
substring check. -/
def containsCI (msg pat : String) : Bool :=
  infixOfL pat.toLower.toList msg.toLower.toList

/-- `RETRYABLE_MESSAGE_PATTERNS` from the source.  Every entry is a literal
except `/EAI_AGAIN|ENOTFOUND/i`, an alternation of two literals; so each
pattern is modelled as the list of its literal alternatives. -/
def RETRYABLE_MESSAGE_PATTERNS : List (List String) :=
  [ ["Can\x27t reach database server"],
    ["ECONNREFUSED"],
    ["ETIMEDOUT"],
    ["ECONNRESET"],
    ["EAI_AGAIN", "ENOTFOUND"],
    ["server closed the connection"],
    ["Connection terminated"],
    ["connection terminated unexpectedly"] ]

/-- `pattern.test(msg)` for one modelled pattern (list of alternatives). -/
def patternTest (alts : List String) (msg : String) : Bool :=
  alts.any (fun pat => containsCI msg pat)

/-- `RETRYABLE_MESSAGE_PATTERNS.some(pattern => pattern.test(msg))`. -/
def matchesAnyPattern (msg : String) : Bool :=
  RETRYABLE_MESSAGE_PATTERNS.any (fun alts => patternTest alts msg)

/-- The enhanced variant's `isRetryable`, branch for branch:
1. every `PrismaClientInitializationError` is retryable;
2. `PrismaClientKnownRequestError` by membership of `code` in `RETRYABLE_CODES`;
3. `PrismaClientUnknownRequestError` by message patterns;
4. generic fallback by message patterns when the message is a string, else false. -/
def isRetryable : PrismaError → Bool
  | .initialization _ _ => true
  | .knownRequest code _ => RETRYABLE_CODES.contains code
  | .unknownRequest msg => matchesAnyPattern msg
  | .generic (some msg) => matchesAnyPattern msg
  | .generic none => false

/-- The one-shot variant's `isRetryable`: known-request errors by code, and
initialization errors by membership of `errorCode ?? ''` in `RETRYABLE_CODES`;
everything else is not retryable. -/
def isRetryableOneShot : PrismaError → Bool
  | .knownRequest code _ => RETRYABLE_CODES.contains code
  | .initialization errorCode _ => RETRYABLE_CODES.contains (errorCode.getD "")
  | .unknownRequest _ => false
  | .generic _ => false

/-- `getErrorIdentifier` from the enhanced variant. -/
def getErrorIdentifier : PrismaError → String
  | .knownRequest code _ => code
  | .unknownRequest _ => "PRISMA_UNKNOWN_REQUEST_ERROR"
  | .initialization errorCode _ => errorCode.getD "PRISMA_CLIENT_INITIALIZATION_ERROR"
  | .generic _ => "UNKNOWN_ERROR_PRISMA"

/-- One `console.warn` event emitted before a retry: it names the operation
(`model.operation`), the attempt number out of the total, the classified error
identifier, and the base delay chosen for this retry. -/
structure WarnEvent where
  label : String
  attemptNumber : Nat
  totalAttempts : Nat
  errorId : String
  delayMs : Nat
  deriving DecidableEq

/-- How one call of the wrapped operation terminates: a returned result, a
thrown error, or the loop exiting normally into the trailing
`throw lastError` statement. -/
inductive Outcome (R : Type) where
  | ok (r : R)
  | thrown (e : PrismaError)
  | fellThrough (lastError : Option PrismaError)
  deriving DecidableEq

/-- Observable behaviour of one call of the wrapped operation: its outcome,
how many times `query(args)` was invoked, the base delays waited (each actual
suspension being `jitter` of the recorded base delay), and the warn events. -/
structure Trace (R : Type) where
  outcome : Outcome R
  invocations : Nat
  delays : List Nat
  warns : List WarnEvent
  deriving DecidableEq

/-- The retry loop of the enhanced variant's `$allOperations`, from loop
counter value `attempt` on.  `op n` is the outcome of the `n`-th evaluation of
`query(args)`.  Branches in source order: loop guard
`attempt <= RETRY_DELAYS_MS.length`; try `query(args)`; on failure fail fast
when not retryable; throw when retries are exhausted; otherwise warn, wait
`jitter(RETRY_DELAYS_MS[attempt])`, and iterate with `lastError` updated.
Leaving the loop normally reaches `throw lastError`, recorded as
`Outcome.fellThrough`. -/
def runFrom {R : Type} (label : String) (op : Nat → Except PrismaError R)
    (attempt : Nat) (lastError : Option PrismaError) : Trace R :=
  if attempt ≤ RETRY_DELAYS_MS.length then
    match op attempt with
    | .ok r => ⟨.ok r, 1, [], []⟩
    | .error e =>
      if isRetryable e = false then ⟨.thrown e, 1, [], []⟩
      else if h : RETRY_DELAYS_MS.length ≤ attempt then ⟨.thrown e, 1, [], []⟩
      else
        let d := RETRY_DELAYS_MS.getD attempt 0
        let ev : WarnEvent :=
          ⟨label, attempt + 1, RETRY_DELAYS_MS.length + 1, getErrorIdentifier e, d⟩
        let t := runFrom label op (attempt + 1) (some e)
        ⟨t.outcome, t.invocations + 1, d :: t.delays, ev :: t.warns⟩
  else ⟨.fellThrough lastError, 0, [], []⟩
termination_by RETRY_DELAYS_MS.length + 1 - attempt
decreasing_by simp [RETRY_DELAYS_MS] at *; omega

/-- The enhanced variant's `$allOperations` wrapper: the retry loop started at
`attempt = 0` with no `lastError` recorded yet. -/
def withRetry {R : Type} (label : String) (op : Nat → Except PrismaError R) : Trace R :=
  runFrom label op 0 none

/-- Whether an outcome is the loop exiting normally into `throw lastError`. -/
def Outcome.isFellThrough {R : Type} : Outcome R → Bool
  | .fellThrough _ => true
  | _ => false

theorem runFrom_ok {R : Type} (label : String) (op : Nat → Except PrismaError R)
    (attempt : Nat) (lastError : Option PrismaError) (r : R)
    (hle : attempt ≤ RETRY_DELAYS_MS.length) (hop : op attempt = .ok r) :
    runFrom label op attempt lastError = ⟨.ok r, 1, [], []⟩ := by
  rw [runFrom]
  simp [hle, hop]

theorem runFrom_fail_fast {R : Type} (label : String) (op : Nat → Except PrismaError R)
    (attempt : Nat) (lastError : Option PrismaError) (e : PrismaError)
    (hle : attempt ≤ RETRY_DELAYS_MS.length) (hop : op attempt = .error e)
    (hr : isRetryable e = false) :
    runFrom label op attempt lastError = ⟨.thrown e, 1, [], []⟩ := by
  rw [runFrom]
  simp [hle, hop, hr]

theorem runFrom_fail_exhausted {R : Type} (label : String) (op : Nat → Except PrismaError R)
    (attempt : Nat) (lastError : Option PrismaError) (e : PrismaError)
    (heq : attempt = RETRY_DELAYS_MS.length) (hop : op attempt = .error e)
    (hr : isRetryable e = true) :
    runFrom label op attempt lastError = ⟨.thrown e, 1, [], []⟩ := by
  subst heq
  rw [runFrom]
  simp [hop, hr]

theorem runFrom_fail_retry {R : Type} (label : String) (op : Nat → Except PrismaError R)
    (attempt : Nat) (lastError : Option PrismaError) (e : PrismaError)
    (hlt : attempt < RETRY_DELAYS_MS.length) (hop : op attempt = .error e)
    (hr : isRetryable e = true) :
    runFrom label op attempt lastError =
      ⟨(runFrom label op (attempt + 1) (some e)).outcome,
        (runFrom label op (attempt + 1) (some e)).invocations + 1,
        RETRY_DELAYS_MS.getD attempt 0 :: (runFrom label op (attempt + 1) (some e)).delays,
        ⟨label, attempt + 1, RETRY_DELAYS_MS.length + 1, getErrorIdentifier e,
          RETRY_DELAYS_MS.getD attempt 0⟩ :: (runFrom label op (attempt + 1) (some e)).warns⟩ := by
  rw [runFrom]
  simp [Nat.le_of_lt hlt, Nat.not_le_of_lt hlt, hop, hr]

theorem runFrom_no_fall_aux {R : Type} (label : String) (op : Nat → Except PrismaError R) :
    ∀ (k attempt : Nat) (lastError : Option PrismaError),
      attempt ≤ RETRY_DELAYS_MS.length →
      RETRY_DELAYS_MS.length + 1 - attempt ≤ k →
      ((runFrom label op attempt lastError).outcome).isFellThrough = false := by
  intro k
  induction k with
  | zero =>
    intro attempt lastError hle hk
    omega
  | succ k ih =>
    intro attempt lastError hle hk
    rcases hop : op attempt with e | r
    · by_cases hr : isRetryable e = false
      · rw [runFrom_fail_fast label op attempt lastError e hle hop hr]
        rfl
      · have hr' : isRetryable e = true := by
          revert hr
          cases isRetryable e <;> simp
        by_cases hlt : attempt < RETRY_DELAYS_MS.length
        · rw [runFrom_fail_retry label op attempt lastError e hlt hop hr']
          exact ih (attempt + 1) (some e) (by omega) (by omega)
        · have heq : attempt = RETRY_DELAYS_MS.length := by omega
          rw [runFrom_fail_exhausted label op attempt lastError e heq hop hr']
          rfl
    · rw [runFrom_ok label op attempt lastError r hle hop]
      rfl

/-- C9: the trailing `throw lastError` after the retry loop is dead code —
for every operation and every sequence of attempt outcomes, the wrapped call
returns a result or throws from inside the loop, and its outcome is never the
loop exiting normally into the trailing throw. -/
theorem retry_loop_never_falls_through {R : Type} (label : String)
    (op : Nat → Except PrismaError R) :
    ((withRetry label op).outcome).isFellThrough = false :=
  runFrom_no_fall_aux label op (RETRY_DELAYS_MS.length + 1) 0 none (Nat.zero_le _) (by omega)

/-- C7: an operation that succeeds on its first invocation makes the wrapper
return that result after exactly one invocation, with no delay and no warn
event — observationally a direct call. -/
theorem withRetry_first_try_success {R : Type} (label : String)
    (op : Nat → Except PrismaError R) (r : R) (hop : op 0 = .ok r) :
    withRetry label op = ⟨.ok r, 1, [], []⟩ :=
  runFrom_ok label op 0 none r (Nat.zero_le _) hop

theorem withRetry_first_try_success_witness :
    (fun _ : Nat => (Except.ok 42 : Except PrismaError Nat)) 0 = Except.ok 42 ∧
    withRetry "User.findMany" (fun _ : Nat => (Except.ok 42 : Except PrismaError Nat)) =
      ⟨Outcome.ok 42, 1, [], []⟩ :=
  ⟨rfl, withRetry_first_try_success "User.findMany" _ 42 rfl⟩

/-- C4: an operation whose first invocation fails with a non-retryable error
makes the wrapper rethrow exactly that error value after exactly one
invocation, with no delay and no warn event. -/
theorem withRetry_nonretryable_fails_fast {R : Type} (label : String)
    (op : Nat → Except PrismaError R) (e : PrismaError)
    (hop : op 0 = .error e) (hr : isRetryable e = false) :
    withRetry label op = ⟨.thrown e, 1, [], []⟩ :=
  runFrom_fail_fast label op 0 none e (Nat.zero_le _) hop hr

theorem withRetry_nonretryable_fails_fast_witness :
    isRetryable (.knownRequest "P2002" "Unique constraint failed") = false ∧
    withRetry "User.create"
        (fun _ : Nat =>
          (Except.error (.knownRequest "P2002" "Unique constraint failed") :
            Except PrismaError Nat)) =
      ⟨Outcome.thrown (.knownRequest "P2002" "Unique constraint failed"), 1, [], []⟩ :=
  ⟨by decide, withRetry_nonretryable_fails_fast "User.create" _ _ rfl (by decide)⟩

/-- C5: an operation that fails with a retryable error on every invocation is
invoked exactly `RETRY_DELAYS_MS.length + 1 = 4` times, every schedule delay
is waited, and the error of the final (fourth) attempt is what propagates. -/
theorem withRetry_always_failing_exhausts {R : Type} (label : String)
    (op : Nat → Except PrismaError R) (errs : Nat → PrismaError)
    (hop : ∀ n, op n = .error (errs n)) (hr : ∀ n, isRetryable (errs n) = true) :
    (withRetry label op).invocations = RETRY_DELAYS_MS.length + 1 ∧
    (withRetry label op).invocations = 4 ∧
    (withRetry label op).outcome = .thrown (errs 3) ∧
    (withRetry label op).delays = RETRY_DELAYS_MS := by
  have h0 := runFrom_fail_retry label op 0 none (errs 0) (by decide) (hop 0) (hr 0)
  have h1 := runFrom_fail_retry label op 1 (some (errs 0)) (errs 1) (by decide) (hop 1) (hr 1)
  have h2 := runFrom_fail_retry label op 2 (some (errs 1)) (errs 2) (by decide) (hop 2) (hr 2)
  have h3 := runFrom_fail_exhausted label op 3 (some (errs 2)) (errs 3) (by decide) (hop 3) (hr 3)
  refine ⟨?_, ?_, ?_, ?_⟩ <;> simp [withRetry, h0, h1, h2, h3, RETRY_DELAYS_MS]

theorem withRetry_always_failing_exhausts_witness :
    (∀ n : Nat, (fun _ : Nat =>
        (Except.error (.initialization none "Cannot connect") : Except PrismaError Nat)) n =
      Except.error ((fun _ : Nat => PrismaError.initialization none "Cannot connect") n)) ∧
    (∀ n : Nat, isRetryable ((fun _ : Nat => PrismaError.initialization none "Cannot connect") n) = true) ∧
    ((withRetry "User.findMany" (fun _ : Nat =>
        (Except.error (.initialization none "Cannot connect") : Except PrismaError Nat))).invocations =
          RETRY_DELAYS_MS.length + 1 ∧
     (withRetry "User.findMany" (fun _ : Nat =>
        (Except.error (.initialization none "Cannot connect") : Except PrismaError Nat))).invocations = 4 ∧
     (withRetry "User.findMany" (fun _ : Nat =>
        (Except.error (.initialization none "Cannot connect") : Except PrismaError Nat))).outcome =
          .thrown ((fun _ : Nat => PrismaError.initialization none "Cannot connect") 3) ∧
     (withRetry "User.findMany" (fun _ : Nat =>
        (Except.error (.initialization none "Cannot connect") : Except PrismaError Nat))).delays =
          RETRY_DELAYS_MS) :=
  ⟨fun _ => rfl, fun _ => rfl,
    withRetry_always_failing_exhausts "User.findMany" _ _ (fun _ => rfl) (fun _ => rfl)⟩

/-- C6: an operation that fails retryably on attempts `0 .. K-1` and succeeds
on attempt `K` (with `K` below the schedule length) is invoked exactly `K + 1`
times, waits exactly the first `K` schedule delays, emits exactly one warn
event per retry (attempt number out of 4, classified error identifier, chosen
base delay) and none for the success, and returns the success result. -/
theorem withRetry_recovers_after_k_failures {R : Type} (label : String)
    (op : Nat → Except PrismaError R) (errs : Nat → PrismaError) (r : R) (K : Nat)
    (hK : K < RETRY_DELAYS_MS.length)
    (hfail : ∀ n, n < K → op n = .error (errs n))
    (hretry : ∀ n, n < K → isRetryable (errs n) = true)
    (hsucc : op K = .ok r) :
    (withRetry label op).outcome = .ok r ∧
    (withRetry label op).invocations = K + 1 ∧
    (withRetry label op).delays = RETRY_DELAYS_MS.take K ∧
    (withRetry label op).warns = (List.range K).map (fun i =>
      ⟨label, i + 1, RETRY_DELAYS_MS.length + 1, getErrorIdentifier (errs i),
        RETRY_DELAYS_MS.getD i 0⟩) := by
  simp only [RETRY_DELAYS_MS, List.length] at hK
  interval_cases K
  · have h0 := runFrom_ok label op 0 none r (by decide) hsucc
    refine ⟨?_, ?_, ?_, ?_⟩ <;> simp [withRetry, h0, RETRY_DELAYS_MS]
  · have h0 := runFrom_fail_retry label op 0 none (errs 0) (by decide)
      (hfail 0 (by omega)) (hretry 0 (by omega))
    have h1 := runFrom_ok label op 1 (some (errs 0)) r (by decide) hsucc
    refine ⟨?_, ?_, ?_, ?_⟩ <;>
      simp [withRetry, h0, h1, RETRY_DELAYS_MS, List.range_succ]
  · have h0 := runFrom_fail_retry label op 0 none (errs 0) (by decide)
      (hfail 0 (by omega)) (hretry 0 (by omega))
    have h1 := runFrom_fail_retry label op 1 (some (errs 0)) (errs 1) (by decide)
      (hfail 1 (by omega)) (hretry 1 (by omega))
    have h2 := runFrom_ok label op 2 (some (errs 1)) r (by decide) hsucc
    refine ⟨?_, ?_, ?_, ?_⟩ <;>
      simp [withRetry, h0, h1, h2, RETRY_DELAYS_MS, List.range_succ]

/-- Operation used to witness the recovery theorem: one retryable failure,
then success. -/
def opRecover : Nat → Except PrismaError Nat
  | 0 => .error (.initialization none "Timed out during database wake-up")
  | _ => .ok 7

/-- The per-attempt errors of `opRecover`. -/
def errsRecover : Nat → PrismaError :=
  fun _ => .initialization none "Timed out during database wake-up"

theorem withRetry_recovers_after_k_failures_witness :
    1 < RETRY_DELAYS_MS.length ∧
    (∀ n, n < 1 → opRecover n = Except.error (errsRecover n)) ∧
    (∀ n, n < 1 → isRetryable (errsRecover n) = true) ∧
    opRecover 1 = Except.ok 7 ∧
    ((withRetry "Post.findFirst" opRecover).outcome = Outcome.ok 7 ∧
     (withRetry "Post.findFirst" opRecover).invocations = 1 + 1 ∧
     (withRetry "Post.findFirst" opRecover).delays = RETRY_DELAYS_MS.take 1 ∧
     (withRetry "Post.findFirst" opRecover).warns = (List.range 1).map (fun i =>
       ⟨"Post.findFirst", i + 1, RETRY_DELAYS_MS.length + 1,
         getErrorIdentifier (errsRecover i), RETRY_DELAYS_MS.getD i 0⟩)) :=
  ⟨by decide,
   fun n hn => by interval_cases n; rfl,
   fun n hn => by interval_cases n; rfl,
   rfl,
   withRetry_recovers_after_k_failures "Post.findFirst" opRecover errsRecover 7 1 (by decide)
     (fun n hn => by interval_cases n; rfl)
     (fun n hn => by interval_cases n; rfl) rfl⟩

/-- C1 (counterexample): the claim asserts that *both* variants treat every
initialization error as retryable; but the one-shot variant's `isRetryable`
checks `errorCode ?? ''` against `RETRYABLE_CODES`, so an initialization
error without an error code is classified not retryable there. -/
theorem oneShot_init_without_code_not_retryable :
    isRetryableOneShot (.initialization none "Timed out during connection handshake") = false := by
  decide

/-- C1 (amended): the enhanced variant's `isRetryable` returns true for every
initialization error, unconditionally; the one-shot variant instead returns
true for an initialization error exactly when `errorCode ?? ''` is a member
of the Retryable-Code Set. -/
theorem init_retryable_enhanced_unconditional_oneShot_code_gated :
    ∀ (errorCode : Option String) (message : String),
      isRetryable (.initialization errorCode message) = true ∧
      isRetryableOneShot (.initialization errorCode message) =
        RETRYABLE_CODES.contains (errorCode.getD "") :=
  fun _ _ => ⟨rfl, rfl⟩

/-- C2: a known-request error is classified retryable iff its code is a
member of the Retryable-Code Set \x7bP1001, P1002, P1008, P1017, P2024\x7d;
every code outside the set yields false. -/
theorem knownRequest_retryable_iff_code_in_set :
    ∀ (code message : String),
      isRetryable (.knownRequest code message) = true ↔
        code ∈ (["P1001", "P1002", "P1008", "P1017", "P2024"] : List String) := by
  intro code message
  simp [isRetryable, RETRYABLE_CODES]

/-- C3: an unknown-request error, and a generic value that is none of the
three Prisma error classes but carries a string message, are classified
retryable exactly when the message matches at least one entry of the
Message-Pattern Set (each entry a case-insensitive substring/alternation
test); so a matching message yields true even with no structured tag. -/
theorem unstructured_retryable_iff_message_matches :
    ∀ message : String,
      (isRetryable (.unknownRequest message) = true ↔
        ∃ alts ∈ RETRYABLE_MESSAGE_PATTERNS, patternTest alts message = true) ∧
      (isRetryable (.generic (some message)) = true ↔
        ∃ alts ∈ RETRYABLE_MESSAGE_PATTERNS, patternTest alts message = true) := by
  intro message
  constructor <;> simp [isRetryable, matchesAnyPattern, List.any_eq_true]

/-- C8: for every base delay of the schedule and every value of the random
source in `[0, 1)`, the jittered delay lies in `[d, d + 250)`. -/
theorem jitter_within_bounds (d : Nat) (rand : ℚ)
    (hd : d ∈ RETRY_DELAYS_MS) (h0 : 0 ≤ rand) (h1 : rand < 1) :
    (d : ℤ) ≤ jitter d rand ∧ jitter d rand < (d : ℤ) + 250 := by
  unfold jitter
  constructor
  · have hf : (0 : ℤ) ≤ Int.floor (rand * 250) := by
      apply Int.floor_nonneg.mpr
      positivity
    omega
  · have hf : Int.floor (rand * 250) < 250 := by
      apply Int.floor_lt.mpr
      push_cast
      linarith
    omega

theorem jitter_within_bounds_witness :
    (1000 ∈ RETRY_DELAYS_MS) ∧ (0 ≤ (1 / 2 : ℚ)) ∧ ((1 / 2 : ℚ) < 1) ∧
    ((1000 : ℤ) ≤ jitter 1000 (1 / 2) ∧ jitter 1000 (1 / 2) < (1000 : ℤ) + 250) :=
  ⟨by decide, by norm_num, by norm_num,
    jitter_within_bounds 1000 (1 / 2) (by decide) (by norm_num) (by norm_num)⟩

/-- C10: the one-shot classifier is strictly more restrictive than the
enhanced one — whatever it accepts the enhanced classifier accepts, and the
two disagree, e.g. on an initialization error without an error code. -/
theorem oneShot_stricter_than_enhanced :
    (∀ e : PrismaError, isRetryableOneShot e = true → isRetryable e = true) ∧
    (isRetryable (.initialization none "connection pool init failed") = true ∧
     isRetryableOneShot (.initialization none "connection pool init failed") = false) := by
  refine ⟨?_, rfl, by decide⟩
  intro e h
  cases e with
  | initialization errorCode message => rfl
  | knownRequest code message => exact h
  | unknownRequest message => exact absurd h (by simp [isRetryableOneShot])
  | generic message => exact absurd h (by simp [isRetryableOneShot])

theorem oneShot_stricter_than_enhanced_witness :
    isRetryableOneShot (.knownRequest "P1001" "server down") = true ∧
    isRetryable (.knownRequest "P1001" "server down") = true :=
  ⟨by decide, oneShot_stricter_than_enhanced.1 _ (by decide)⟩

end NeonRetry
